import Mathlib

/-!
Shallow embedding of the waitlist registration service in `server.js`
(express routes over a Firestore "waitlist" collection).

The Firestore collection is modelled as a list of entries, each carrying a
store-assigned id and the stored `email` field.  Fallibility of the external
collaborators is modelled by explicit flags: `queryFails` / `insertFails`
make the corresponding Firestore call throw, `notifyFails` makes the
nodemailer `sendMail` call throw, and `deleteFails` gives, per document id,
whether that single-document delete throws.  The external
`validator.isEmail` check is an opaque collaborator, so the embedding is
parametric in it.
-/

namespace Waitlist

/-- A document of the `waitlist` collection: a store-assigned opaque id
plus the single `email` data field (`db.collection("waitlist").add({ email })`
stores exactly one field). -/
structure Entry where
  id : Nat
  email : String
deriving DecidableEq, Repr

/-- Embeds the JavaScript `String.prototype.trim`: remove whitespace
characters from both ends of the string. -/
def trim (s : String) : String :=
  ⟨((s.data.dropWhile Char.isWhitespace).reverse.dropWhile
      Char.isWhitespace).reverse⟩

/-- A fresh store-assigned id, distinct from every id in the store. -/
def freshId (st : List Entry) : Nat :=
  (st.map Entry.id).foldr max 0 + 1

/-- Number of entries in the store whose `email` field equals `em` exactly,
mirroring the `where("email", "==", em)` query. -/
def countEmail (st : List Entry) (em : String) : Nat :=
  (st.filter (fun e => e.email == em)).length

/-- Embeds `sendConfirmationEmail`: the `await transporter.sendMail` is
wrapped in a try/catch whose catch branch only logs, so the function always
returns normally; the returned flag is whether delivery succeeded, visible
only in the log. -/
def sendConfirmationEmail (notifyFails : Bool) : Bool :=
  !notifyFails

/-- The caller-visible outcome of `POST /add-entry`:
400 "Invalid email format", 409 "Duplicate email detected",
500 "Error adding entry", or 200 with a message naming the email. -/
inductive RegisterResult
  | invalidInput
  | duplicateEntry
  | storeUnavailable
  | success (email : String)
deriving DecidableEq, Repr

/-- The full observable effect of one `POST /add-entry` request: the HTTP
result, the store afterwards, and counters of the external calls made
(duplicate-check queries, insert attempts, notification attempts), plus the
emails handed to the notifier and the logged delivery outcome. -/
structure RegisterOutcome where
  result : RegisterResult
  store : List Entry
  queries : Nat
  inserts : Nat
  notifyAttempts : Nat
  notifiedEmails : List String
  notifyDelivered : Option Bool
deriving DecidableEq, Repr

/-- Embeds the `app.post("/add-entry")` handler of `server.js`:
`cleanedEmail = email?.trim()`; reject unless `cleanedEmail` is truthy and
`validator.isEmail(cleanedEmail)` holds; query for an exact email match
(409 if nonempty); `add({ email: cleanedEmail })`; then
`sendConfirmationEmail(cleanedEmail)`; any thrown query/insert error is
caught as a 500.  `isEmail` is the external validator, `rawEmail` is
`req.body.email` (`none` when absent). -/
def register (isEmail : String → Bool) (rawEmail : Option String)
    (st : List Entry) (queryFails insertFails notifyFails : Bool) :
    RegisterOutcome :=
  match rawEmail with
  | none =>
      { result := .invalidInput, store := st, queries := 0, inserts := 0,
        notifyAttempts := 0, notifiedEmails := [], notifyDelivered := none }
  | some raw =>
      let cleanedEmail := trim raw
      if cleanedEmail == "" || !isEmail cleanedEmail then
        { result := .invalidInput, store := st, queries := 0, inserts := 0,
          notifyAttempts := 0, notifiedEmails := [], notifyDelivered := none }
      else if queryFails then
        { result := .storeUnavailable, store := st, queries := 1,
          inserts := 0, notifyAttempts := 0, notifiedEmails := [],
          notifyDelivered := none }
      else if st.any (fun e => e.email == cleanedEmail) then
        { result := .duplicateEntry, store := st, queries := 1, inserts := 0,
          notifyAttempts := 0, notifiedEmails := [], notifyDelivered := none }
      else if insertFails then
        { result := .storeUnavailable, store := st, queries := 1,
          inserts := 1, notifyAttempts := 0, notifiedEmails := [],
          notifyDelivered := none }
      else
        { result := .success cleanedEmail,
          store := st ++ [{ id := freshId st, email := cleanedEmail }],
          queries := 1, inserts := 1, notifyAttempts := 1,
          notifiedEmails := [cleanedEmail],
          notifyDelivered := some (sendConfirmationEmail notifyFails) }

/-- The caller-visible outcome of `DELETE /delete-entry`:
404 "No entry found for ...", 500 "Error deleting entry" (the one catch
covers both a failed query and a failed `Promise.all` of deletes), or
200 "Deleted entry: email". -/
inductive DeleteResult
  | notFound
  | deleteError
  | success (email : String)
deriving DecidableEq, Repr

/-- Observable effect of one `DELETE /delete-entry` request: the HTTP
result, the store afterwards, and the ids of the documents whose deletion
was attempted (the `querySnapshot.docs.map(...)` batch). -/
structure DeleteOutcome where
  result : DeleteResult
  store : List Entry
  attemptedIds : List Nat
deriving DecidableEq, Repr

/-- Embeds the `app.delete("/delete-entry")` handler of `server.js`:
query for entries whose `email` equals the request body email verbatim
(no trim, no validation); 404 when empty; otherwise start a delete of every
matching document and `Promise.all` them — each successful delete takes
effect, and if any delete throws the handler answers 500 with no rollback. -/
def deleteByEmail (email : String) (st : List Entry) (queryFails : Bool)
    (deleteFails : Nat → Bool) : DeleteOutcome :=
  if queryFails then
    { result := .deleteError, store := st, attemptedIds := [] }
  else
    let found := st.filter (fun e => e.email == email)
    if found.isEmpty then
      { result := .notFound, store := st, attemptedIds := [] }
    else
      let newStore := st.filter (fun e => !(e.email == email) || deleteFails e.id)
      if found.any (fun e => deleteFails e.id) then
        { result := .deleteError, store := newStore,
          attemptedIds := found.map Entry.id }
      else
        { result := .success email, store := newStore,
          attemptedIds := found.map Entry.id }

/-- The caller-visible outcome of `DELETE /delete-all-entries`. -/
inductive DeleteAllResult
  | notFound
  | deleteError
  | success
deriving DecidableEq, Repr

/-- Observable effect of one `DELETE /delete-all-entries` request. -/
structure DeleteAllOutcome where
  result : DeleteAllResult
  store : List Entry
  attemptedIds : List Nat
deriving DecidableEq, Repr

/-- Embeds the `app.delete("/delete-all-entries")` handler of `server.js`:
read the whole collection; 404 when empty; otherwise start a delete of
every document and `Promise.all` them, 500 if any throws, no rollback. -/
def deleteAllEntries (st : List Entry) (queryFails : Bool)
    (deleteFails : Nat → Bool) : DeleteAllOutcome :=
  if queryFails then
    { result := .deleteError, store := st, attemptedIds := [] }
  else if st.isEmpty then
    { result := .notFound, store := st, attemptedIds := [] }
  else
    let newStore := st.filter (fun e => deleteFails e.id)
    if st.any (fun e => deleteFails e.id) then
      { result := .deleteError, store := newStore,
        attemptedIds := st.map Entry.id }
    else
      { result := .success, store := newStore,
        attemptedIds := st.map Entry.id }

/-- The caller-visible outcome of `GET /get-all-entries`: 500, or 200 with
the `doc.data()` of every document (each holds only the email field). -/
inductive ListResult
  | storeUnavailable
  | ok (emails : List String)
deriving DecidableEq, Repr

/-- Embeds the `app.get("/get-all-entries")` handler of `server.js`:
a single read of the collection; the pair is (HTTP result, store after). -/
def listAll (st : List Entry) (queryFails : Bool) :
    ListResult × List Entry :=
  if queryFails then (.storeUnavailable, st)
  else (.ok (st.map Entry.email), st)

/-- A stand-in for the external `validator.isEmail` collaborator, used to
instantiate concrete test cases; the theorems themselves are parametric in
the validator. -/
def demoValidator (s : String) : Bool :=
  s.toList.contains '@' && !s.toList.contains ' '

/-- C1: for every email already present in the store (with the request
passing the external format check and the duplicate-check query reaching
the store), Register answers DuplicateEntry, performs no insert and no
notification attempt, and the store — hence the entry count for that
email — is unchanged. -/
theorem register_duplicate_no_side_effects
    (isEmail : String → Bool) (raw : String) (st : List Entry)
    (insertFails notifyFails : Bool)
    (hne : trim raw ≠ "") (hv : isEmail (trim raw) = true)
    (hdup : st.any (fun e => e.email == trim raw) = true) :
    register isEmail (some raw) st false insertFails notifyFails =
      { result := .duplicateEntry, store := st, queries := 1, inserts := 0,
        notifyAttempts := 0, notifiedEmails := [], notifyDelivered := none } ∧
    countEmail (register isEmail (some raw) st false insertFails
        notifyFails).store (trim raw) = countEmail st (trim raw) := by
  have h : register isEmail (some raw) st false insertFails notifyFails =
      { result := .duplicateEntry, store := st, queries := 1, inserts := 0,
        notifyAttempts := 0, notifiedEmails := [], notifyDelivered := none } := by
    simp [register, hne, hv, hdup]
  exact ⟨h, by rw [h]⟩

/-- Witness for C1: a store already holding the email rejects a second
registration of it with no side effect. -/
theorem register_duplicate_no_side_effects_witness :
    register demoValidator (some "a@b.com") [⟨1, "a@b.com"⟩] false false
        false =
      { result := .duplicateEntry, store := [⟨1, "a@b.com"⟩], queries := 1,
        inserts := 0, notifyAttempts := 0, notifiedEmails := [],
        notifyDelivered := none } :=
  (register_duplicate_no_side_effects demoValidator "a@b.com"
    [⟨1, "a@b.com"⟩] false false (by decide) (by decide) (by decide)).1

/-- C2: once the insert has succeeded, a notifier failure is caught inside
`sendConfirmationEmail`: the result is still Success, the inserted entry
stays in the store, and both the result and the store are identical to what
a succeeding notifier would have produced. -/
theorem register_notifier_failure_still_success
    (isEmail : String → Bool) (raw : String) (st : List Entry)
    (notifyFails : Bool)
    (hne : trim raw ≠ "") (hv : isEmail (trim raw) = true)
    (hnodup : st.any (fun e => e.email == trim raw) = false) :
    (register isEmail (some raw) st false false notifyFails).result =
      .success (trim raw) ∧
    (register isEmail (some raw) st false false notifyFails).store =
      st ++ [{ id := freshId st, email := trim raw }] ∧
    (register isEmail (some raw) st false false notifyFails).result =
      (register isEmail (some raw) st false false false).result ∧
    (register isEmail (some raw) st false false notifyFails).store =
      (register isEmail (some raw) st false false false).store := by
  simp [register, hne, hv, hnodup]

/-- Witness for C2: with a failing notifier, registering a fresh email
still succeeds and the entry is persisted. -/
theorem register_notifier_failure_still_success_witness :
    (register demoValidator (some "a@b.com") [] false false true).result =
      .success "a@b.com" ∧
    (register demoValidator (some "a@b.com") [] false false true).store =
      [{ id := 1, email := "a@b.com" }] :=
  ⟨(register_notifier_failure_still_success demoValidator "a@b.com" []
      true (by decide) (by decide) (by decide)).1,
   (register_notifier_failure_still_success demoValidator "a@b.com" []
      true (by decide) (by decide) (by decide)).2.1⟩

/-- C3: when the trimmed input fails the email-format check — including an
absent body field and an all-whitespace string — Register answers
InvalidInput having made no store query, no insert and no notifier call,
and the store is unchanged. -/
theorem register_invalid_input_no_side_effects
    (isEmail : String → Bool) (rawEmail : Option String) (st : List Entry)
    (queryFails insertFails notifyFails : Bool)
    (hbad : rawEmail = none ∨
      ∃ raw, rawEmail = some raw ∧
        (trim raw = "" ∨ isEmail (trim raw) = false)) :
    register isEmail rawEmail st queryFails insertFails notifyFails =
      { result := .invalidInput, store := st, queries := 0, inserts := 0,
        notifyAttempts := 0, notifiedEmails := [], notifyDelivered := none } := by
  rcases hbad with h | ⟨raw, rfl, hraw⟩
  · subst h; rfl
  · rcases hraw with h1 | h2
    · simp [register, h1]
    · simp [register, h2]

/-- Witness for C3: a malformed email is rejected with zero external
calls. -/
theorem register_invalid_input_no_side_effects_witness :
    register demoValidator (some "not an email") [] false false false =
      { result := .invalidInput, store := [], queries := 0, inserts := 0,
        notifyAttempts := 0, notifiedEmails := [], notifyDelivered := none } :=
  register_invalid_input_no_side_effects demoValidator (some "not an email")
    [] false false false (Or.inr ⟨"not an email", rfl, Or.inr (by decide)⟩)

/-- C4: if the duplicate-check query throws, Register answers
StoreUnavailable with no insert attempted and no notification; if the
query succeeds, no duplicate exists and the insert throws, Register
answers StoreUnavailable with no notification; in both cases the store is
unchanged. -/
theorem register_store_failure_no_partial_state
    (isEmail : String → Bool) (raw : String) (st : List Entry)
    (insertFails notifyFails : Bool)
    (hne : trim raw ≠ "") (hv : isEmail (trim raw) = true) :
    register isEmail (some raw) st true insertFails notifyFails =
      { result := .storeUnavailable, store := st, queries := 1,
        inserts := 0, notifyAttempts := 0, notifiedEmails := [],
        notifyDelivered := none } ∧
    (st.any (fun e => e.email == trim raw) = false →
      register isEmail (some raw) st false true notifyFails =
        { result := .storeUnavailable, store := st, queries := 1,
          inserts := 1, notifyAttempts := 0, notifiedEmails := [],
          notifyDelivered := none }) := by
  constructor
  · simp [register, hne, hv]
  · intro hnodup
    simp [register, hne, hv, hnodup]

/-- Witness for C4: a failing query and a failing insert each surface as
StoreUnavailable with the store unchanged and no notification. -/
theorem register_store_failure_no_partial_state_witness :
    register demoValidator (some "a@b.com") [] true false false =
      { result := .storeUnavailable, store := [], queries := 1,
        inserts := 0, notifyAttempts := 0, notifiedEmails := [],
        notifyDelivered := none } ∧
    register demoValidator (some "a@b.com") [] false true false =
      { result := .storeUnavailable, store := [], queries := 1,
        inserts := 1, notifyAttempts := 0, notifiedEmails := [],
        notifyDelivered := none } :=
  ⟨(register_store_failure_no_partial_state demoValidator "a@b.com" []
      false false (by decide) (by decide)).1,
   (register_store_failure_no_partial_state demoValidator "a@b.com" []
      true false (by decide) (by decide)).2 (by decide)⟩

/-- Helper: with no matching entry, DeleteByEmail answers NotFound and
changes nothing. -/
theorem deleteByEmail_of_countEmail_zero
    (email : String) (st : List Entry) (deleteFails : Nat → Bool)
    (h : countEmail st email = 0) :
    deleteByEmail email st false deleteFails =
      { result := .notFound, store := st, attemptedIds := [] } := by
  have hf : st.filter (fun e => e.email == email) = [] :=
    List.length_eq_zero.mp h
  simp [deleteByEmail, hf]

/-- C5 counterexample: the success result of DeleteByEmail does not report
the number of entries removed.  Removing one entry and removing two
entries for the same email produce the identical success value, which
carries only the email; the deletions themselves do happen. -/
theorem deleteByEmail_success_payload_has_no_count :
    (deleteByEmail "x@example.com"
        ([⟨1, "x@example.com"⟩] : List Entry) false (fun _ => false)).result =
      (deleteByEmail "x@example.com"
        ([⟨1, "x@example.com"⟩, ⟨2, "x@example.com"⟩] : List Entry) false
        (fun _ => false)).result ∧
    countEmail ([⟨1, "x@example.com"⟩] : List Entry) "x@example.com" = 1 ∧
    countEmail ([⟨1, "x@example.com"⟩, ⟨2, "x@example.com"⟩] : List Entry)
      "x@example.com" = 2 ∧
    (deleteByEmail "x@example.com"
        ([⟨1, "x@example.com"⟩, ⟨2, "x@example.com"⟩] : List Entry) false
        (fun _ => false)).store = [] ∧
    (deleteByEmail "x@example.com"
        ([⟨1, "x@example.com"⟩, ⟨2, "x@example.com"⟩] : List Entry) false
        (fun _ => false)).result = .success "x@example.com" := by
  decide

/-- C5 (amended): with zero matches DeleteByEmail fails NotFound and
leaves the store unchanged; with at least one match and every
single-document delete succeeding, it removes every matching entry
(tolerating more than one) and answers a success message naming the
email — the removed count is not part of the result. -/
theorem deleteByEmail_removes_all_matches
    (email : String) (st : List Entry) (deleteFails : Nat → Bool) :
    (countEmail st email = 0 →
      deleteByEmail email st false deleteFails =
        { result := .notFound, store := st, attemptedIds := [] }) ∧
    (0 < countEmail st email →
      (deleteByEmail email st false (fun _ => false)).result =
        .success email ∧
      countEmail (deleteByEmail email st false (fun _ => false)).store
        email = 0 ∧
      ∀ e, e ∈ (deleteByEmail email st false (fun _ => false)).store ↔
        e ∈ st ∧ e.email ≠ email) := by
  constructor
  · intro h
    exact deleteByEmail_of_countEmail_zero email st deleteFails h
  · intro h
    have hf : (st.filter (fun e => e.email == email)).isEmpty = false := by
      rcases List.exists_mem_of_length_pos h with ⟨e, he⟩
      cases hmem : st.filter (fun e => e.email == email) with
      | nil => rw [hmem] at he; cases he
      | cons a l => simp [List.isEmpty]
    have hout : deleteByEmail email st false (fun _ => false) =
        { result := .success email,
          store := st.filter (fun e => !(e.email == email)),
          attemptedIds :=
            (st.filter (fun e => e.email == email)).map Entry.id } := by
      simp [deleteByEmail, hf]
    refine ⟨by rw [hout], ?_, ?_⟩
    · rw [hout]
      simp [countEmail, List.filter_filter]
    · intro e
      rw [hout]
      simp [List.mem_filter]

/-- Witness for C5: deleting an absent email answers NotFound; deleting a
twice-present email succeeds with the email in the payload. -/
theorem deleteByEmail_removes_all_matches_witness :
    deleteByEmail "absent@example.com" ([] : List Entry) false
        (fun _ => false) =
      { result := .notFound, store := [], attemptedIds := [] } ∧
    (deleteByEmail "x@example.com"
        ([⟨1, "x@example.com"⟩, ⟨2, "x@example.com"⟩] : List Entry) false
        (fun _ => false)).result = .success "x@example.com" :=
  ⟨(deleteByEmail_removes_all_matches "absent@example.com" []
      (fun _ => false)).1 (by decide),
   ((deleteByEmail_removes_all_matches "x@example.com"
      [⟨1, "x@example.com"⟩, ⟨2, "x@example.com"⟩]
      (fun _ => false)).2 (by decide)).1⟩

/-- C6: in a bulk deletion where some individual deletes throw, every
matching document still has its deletion attempted, the overall request
fails with the 500 error (the PartialDeletionFailure of the spec, mapped
to the server-error class), and the deletes that succeeded stay in
effect — an entry remains exactly when it was not a match or its own
delete failed.  Stated for both DeleteByEmail and DeleteAll. -/
theorem bulk_delete_partial_failure
    (email : String) (st : List Entry) (deleteFails : Nat → Bool) :
    ((st.filter (fun e => e.email == email)).isEmpty = false →
      (st.filter (fun e => e.email == email)).any
          (fun e => deleteFails e.id) = true →
      (deleteByEmail email st false deleteFails).result = .deleteError ∧
      (deleteByEmail email st false deleteFails).attemptedIds =
        (st.filter (fun e => e.email == email)).map Entry.id ∧
      ∀ e, e ∈ (deleteByEmail email st false deleteFails).store ↔
        e ∈ st ∧ (e.email ≠ email ∨ deleteFails e.id = true)) ∧
    (st.isEmpty = false →
      st.any (fun e => deleteFails e.id) = true →
      (deleteAllEntries st false deleteFails).result = .deleteError ∧
      (deleteAllEntries st false deleteFails).attemptedIds =
        st.map Entry.id ∧
      ∀ e, e ∈ (deleteAllEntries st false deleteFails).store ↔
        e ∈ st ∧ deleteFails e.id = true) := by
  constructor
  · intro hne hfail
    have hout : deleteByEmail email st false deleteFails =
        { result := .deleteError,
          store :=
            st.filter (fun e => !(e.email == email) || deleteFails e.id),
          attemptedIds :=
            (st.filter (fun e => e.email == email)).map Entry.id } := by
      simp [deleteByEmail, hne, hfail]
    refine ⟨by rw [hout], by rw [hout], ?_⟩
    intro e
    rw [hout]
    simp [List.mem_filter]
  · intro hne hfail
    have hout : deleteAllEntries st false deleteFails =
        { result := .deleteError,
          store := st.filter (fun e => deleteFails e.id),
          attemptedIds := st.map Entry.id } := by
      simp [deleteAllEntries, hne, hfail]
    refine ⟨by rw [hout], by rw [hout], ?_⟩
    intro e
    rw [hout]
    simp [List.mem_filter]

/-- Witness for C6: with two matching entries of which the second delete
throws, both bulk routes answer the 500 error and only the failed entry
remains. -/
theorem bulk_delete_partial_failure_witness :
    (deleteByEmail "a@b.com"
        ([⟨1, "a@b.com"⟩, ⟨2, "a@b.com"⟩] : List Entry) false
        (fun i => i == 2)).result = .deleteError ∧
    (deleteAllEntries ([⟨1, "a@b.com"⟩, ⟨2, "a@b.com"⟩] : List Entry) false
        (fun i => i == 2)).result = .deleteError :=
  ⟨((bulk_delete_partial_failure "a@b.com"
      [⟨1, "a@b.com"⟩, ⟨2, "a@b.com"⟩] (fun i => i == 2)).1
      (by decide) (by decide)).1,
   ((bulk_delete_partial_failure "a@b.com"
      [⟨1, "a@b.com"⟩, ⟨2, "a@b.com"⟩] (fun i => i == 2)).2
      (by decide) (by decide)).1⟩

/-- C7: Register works throughout with the whitespace-trimmed input and
nothing else: the duplicate decision holds exactly when some stored entry
equals the trimmed email literally (case-sensitive string equality), and
on the success path the inserted entry and the notifier both receive the
trimmed email unchanged. -/
theorem register_uses_trimmed_email_exactly
    (isEmail : String → Bool) (raw : String) (st : List Entry)
    (insertFails notifyFails : Bool)
    (hne : trim raw ≠ "") (hv : isEmail (trim raw) = true) :
    ((register isEmail (some raw) st false insertFails notifyFails).result =
        .duplicateEntry ↔ ∃ e ∈ st, e.email = trim raw) ∧
    (st.any (fun e => e.email == trim raw) = false →
      (register isEmail (some raw) st false false notifyFails).store =
        st ++ [{ id := freshId st, email := trim raw }] ∧
      (register isEmail (some raw) st false false
          notifyFails).notifiedEmails = [trim raw]) := by
  constructor
  · by_cases hdup : st.any (fun e => e.email == trim raw) = true
    · have hex : ∃ e ∈ st, e.email = trim raw := by
        simpa using hdup
      simp [register, hne, hv, hdup, hex]
    · rw [Bool.not_eq_true] at hdup
      have hex : ¬ ∃ e ∈ st, e.email = trim raw := by
        simpa using hdup
      cases insertFails <;> simp [register, hne, hv, hdup, hex]
  · intro hnodup
    simp [register, hne, hv, hnodup]

/-- Witness for C7: a stored case-variant of the email does not count as a
duplicate, and the inserted and notified email is the trimmed input with
its case preserved. -/
theorem register_uses_trimmed_email_exactly_witness :
    ¬ ((register demoValidator (some "  A@b.com  ")
        ([⟨1, "a@b.com"⟩] : List Entry) false false false).result =
          .duplicateEntry) ∧
    (register demoValidator (some "  A@b.com  ")
        ([⟨1, "a@b.com"⟩] : List Entry) false false false).store =
      [⟨1, "a@b.com"⟩, ⟨2, "A@b.com"⟩] ∧
    (register demoValidator (some "  A@b.com  ")
        ([⟨1, "a@b.com"⟩] : List Entry) false false false).notifiedEmails =
      ["A@b.com"] := by
  have h := register_uses_trimmed_email_exactly demoValidator "  A@b.com  "
    [⟨1, "a@b.com"⟩] false false (by decide) (by decide)
  refine ⟨fun hc => ?_, ?_, ?_⟩
  · have hex := h.1.mp hc
    revert hex
    decide
  · exact (h.2 (by decide)).1
  · exact (h.2 (by decide)).2

/-- C8: ListAll is read-only — the store after the call is the store
before it — and the outcome is either the full list of stored entries or,
exactly when the single read throws, StoreUnavailable. -/
theorem listAll_read_only (st : List Entry) (queryFails : Bool) :
    (listAll st queryFails).2 = st ∧
    (listAll st queryFails).1 =
      (if queryFails then ListResult.storeUnavailable
       else ListResult.ok (st.map Entry.email)) := by
  cases queryFails <;> simp [listAll]

/-- C10: DeleteByEmail matches the request email verbatim — no trimming,
no validation — so deleting with surrounding whitespace misses the entry
Register stored in trimmed form: after a successful registration of a
whitespace-padded email, deleting with the padded form answers NotFound
and removes nothing. -/
theorem deleteByEmail_uses_email_verbatim
    (isEmail : String → Bool) (raw : String) (st : List Entry)
    (notifyFails : Bool) (deleteFails : Nat → Bool)
    (hne : trim raw ≠ "") (hv : isEmail (trim raw) = true)
    (hnodup : st.any (fun e => e.email == trim raw) = false)
    (hws : raw ≠ trim raw)
    (hmiss : countEmail st raw = 0) :
    deleteByEmail raw
        ((register isEmail (some raw) st false false notifyFails).store)
        false deleteFails =
      { result := .notFound,
        store :=
          (register isEmail (some raw) st false false notifyFails).store,
        attemptedIds := [] } := by
  have hst : (register isEmail (some raw) st false false notifyFails).store =
      st ++ [{ id := freshId st, email := trim raw }] := by
    simp [register, hne, hv, hnodup]
  have h1 : st.filter (fun e => e.email == raw) = [] :=
    List.length_eq_zero.mp hmiss
  have h2 : (trim raw == raw) = false := by
    simp
    exact fun h => hws h.symm
  rw [hst]
  refine deleteByEmail_of_countEmail_zero raw _ deleteFails ?_
  simp [countEmail, List.filter_append, h1, h2]

/-- Witness for C10: registering a padded email stores it trimmed, and a
delete request with the padded form finds nothing. -/
theorem deleteByEmail_uses_email_verbatim_witness :
    deleteByEmail " x@a.com "
        ((register demoValidator (some " x@a.com ") [] false false
          false).store) false (fun _ => false) =
      { result := .notFound,
        store := (register demoValidator (some " x@a.com ") [] false false
          false).store,
        attemptedIds := [] } :=
  deleteByEmail_uses_email_verbatim demoValidator " x@a.com " [] false
    (fun _ => false) (by decide) (by decide) (by decide) (by decide)
    (by decide)

/-! Interleaving model for two concurrent `POST /add-entry` requests for
the same fresh email.  Each request is an independent task whose
duplicate-check query and insert are separate awaited store calls with no
lock and no atomic insert-if-absent between them; the scheduler may
interleave the two tasks arbitrarily at those suspension points. -/

/-- Progress of one registration task for the shared email: before its
duplicate-check query, past the query with no match seen (about to
insert), finished with a 409 duplicate answer, or finished having
inserted (and therefore attempted exactly one notification). -/
inductive Phase
  | start
  | willInsert
  | doneDup
  | doneIns
deriving DecidableEq, Repr

/-- Shared state of the race: how many entries for the contended email the
store holds, how many notification attempts happened, and each task. -/
structure RaceState where
  count : Nat
  notifies : Nat
  t1 : Phase
  t2 : Phase
deriving DecidableEq, Repr

/-- One scheduler step: advance the chosen task across its next awaited
call.  A task at its query reads the current count and either gives up
(duplicate seen) or commits to inserting; a task past the query inserts
and triggers its notification attempt; a finished task does nothing. -/
def raceStep (s : RaceState) (pickFirst : Bool) : RaceState :=
  if pickFirst then
    match s.t1 with
    | .start =>
        ⟨s.count, s.notifies,
          if s.count > 0 then .doneDup else .willInsert, s.t2⟩
    | .willInsert => ⟨s.count + 1, s.notifies + 1, .doneIns, s.t2⟩
    | _ => s
  else
    match s.t2 with
    | .start =>
        ⟨s.count, s.notifies, s.t1,
          if s.count > 0 then .doneDup else .willInsert⟩
    | .willInsert => ⟨s.count + 1, s.notifies + 1, s.t1, .doneIns⟩
    | _ => s

/-- Run a whole schedule (each element picks which task moves). -/
def raceRun (sched : List Bool) (s : RaceState) : RaceState :=
  sched.foldl raceStep s

/-- Both requests arrive while the email has no entry. -/
def raceInit : RaceState :=
  { count := 0, notifies := 0, t1 := .start, t2 := .start }

/-- Contribution of a finished insert to the entry count. -/
def insCount : Phase → Nat
  | .doneIns => 1
  | _ => 0

/-- A task is completed when its request has been answered. -/
def phaseDone : Phase → Bool
  | .doneDup => true
  | .doneIns => true
  | _ => false

/-- Reachability invariant of the race: the entry count and the
notification count both equal the number of finished inserts, and a task
only ever answers 409 after an insert has actually landed. -/
def raceInv (s : RaceState) : Prop :=
  s.count = insCount s.t1 + insCount s.t2 ∧
  s.notifies = insCount s.t1 + insCount s.t2 ∧
  ((s.t1 = .doneDup ∨ s.t2 = .doneDup) → 1 ≤ s.count)

theorem raceInv_step (s : RaceState) (b : Bool) (h : raceInv s) :
    raceInv (raceStep s b) := by
  obtain ⟨c, n, t1, t2⟩ := s
  obtain ⟨h1, h2, h3⟩ := h
  cases b <;> cases t1 <;> cases t2 <;>
    simp_all [raceStep, raceInv, insCount]

theorem raceInv_run (sched : List Bool) (s : RaceState) (h : raceInv s) :
    raceInv (raceRun sched s) := by
  induction sched generalizing s with
  | nil => exact h
  | cons b rest ih => exact ih (raceStep s b) (raceInv_step s b h)

theorem raceInv_init : raceInv raceInit := by
  refine ⟨rfl, rfl, ?_⟩
  intro h
  rcases h with h | h <;> cases h

theorem insCount_eq_zero_done (p : Phase) (hd : phaseDone p = true)
    (hz : insCount p = 0) : p = .doneDup := by
  cases p <;> simp [phaseDone, insCount] at hd hz ⊢

/-- C9: under every interleaving of two concurrent Register calls for the
same fresh email, the store never gains more than two entries for it and
at most two notification attempts occur; whenever both requests have been
answered the entry count is exactly 1 or 2; the double insert is really
reachable (a schedule exists where both tasks pass the check and both
insert, with two notification attempts) — the model has no lock and no
atomic insert-if-absent — and the sequential schedule yields a single
entry with a single notification attempt. -/
theorem concurrent_register_race :
    (∀ sched : List Bool, (raceRun sched raceInit).count ≤ 2 ∧
      (raceRun sched raceInit).notifies ≤ 2) ∧
    (∀ sched : List Bool,
      phaseDone (raceRun sched raceInit).t1 = true →
      phaseDone (raceRun sched raceInit).t2 = true →
      (raceRun sched raceInit).count = 1 ∨
        (raceRun sched raceInit).count = 2) ∧
    (∃ sched : List Bool, (raceRun sched raceInit).count = 2 ∧
      (raceRun sched raceInit).notifies = 2 ∧
      phaseDone (raceRun sched raceInit).t1 = true ∧
      phaseDone (raceRun sched raceInit).t2 = true) ∧
    (∃ sched : List Bool, (raceRun sched raceInit).count = 1 ∧
      (raceRun sched raceInit).notifies = 1 ∧
      phaseDone (raceRun sched raceInit).t1 = true ∧
      phaseDone (raceRun sched raceInit).t2 = true) := by
  have hbound : ∀ p : Phase, insCount p ≤ 1 := by
    intro p; cases p <;> simp [insCount]
  refine ⟨?_, ?_, ?_, ?_⟩
  · intro sched
    obtain ⟨h1, h2, _⟩ := raceInv_run sched raceInit raceInv_init
    have b1 := hbound (raceRun sched raceInit).t1
    have b2 := hbound (raceRun sched raceInit).t2
    omega
  · intro sched hd1 hd2
    obtain ⟨h1, h2, h3⟩ := raceInv_run sched raceInit raceInv_init
    have b1 := hbound (raceRun sched raceInit).t1
    have b2 := hbound (raceRun sched raceInit).t2
    by_cases hz : (raceRun sched raceInit).count = 0
    · exfalso
      have i1 : insCount (raceRun sched raceInit).t1 = 0 := by omega
      have i2 : insCount (raceRun sched raceInit).t2 = 0 := by omega
      have e1 := insCount_eq_zero_done _ hd1 i1
      have := h3 (Or.inl e1)
      omega
    · omega
  · exact ⟨[true, false, true, false], by decide, by decide, by decide,
      by decide⟩
  · exact ⟨[true, true, false], by decide, by decide, by decide, by decide⟩

/-- Witness for C9: the overlapped schedule leaves two entries after both
requests complete, and the theorem then places the completed count in
the allowed set. -/
theorem concurrent_register_race_witness :
    phaseDone (raceRun [true, false, true, false] raceInit).t1 = true ∧
    phaseDone (raceRun [true, false, true, false] raceInit).t2 = true ∧
    ((raceRun [true, false, true, false] raceInit).count = 1 ∨
      (raceRun [true, false, true, false] raceInit).count = 2) :=
  ⟨by decide, by decide,
    concurrent_register_race.2.1 [true, false, true, false] (by decide)
      (by decide)⟩

end Waitlist
